import Mathlib

/-!
Verification development for the smbios-validation-tool rule/validation
engine.  The repository source available here consists of the static rule
catalog (rules.py) together with the unit tests of the engine
(matcher_test.py, validator_test.py, error_bucket_test.py); the engine
modules themselves (matcher.py, validator.py, error_bucket.py,
constants.py and the dmiparse collaborator) are specified by the design
document.  Definitions below that embed one of the absent modules carry a
doc comment starting with "Modelled from the spec:" and follow the design
document's wording; rules.py is embedded verbatim.

Python dictionaries (Python >= 3.7) preserve insertion order, so every
mapping of the engine (the record map, the group collection, error-message
dictionaries, the error bucket) is embedded as an insertion-ordered
association list.
-/

namespace Smbios

/-- Modelled from the spec: a field value of a parsed record is either a
scalar string, an ordered sequence of strings, or an ordered sequence of
(referenced-type, referenced-handle) item pairs whose declared element
count is recorded alongside the items (data model, section 3, and the
FieldItemCountChecker description). -/
inductive FieldValue where
  | scalar (value : String)
  | strList (values : List String)
  | itemList (count : Nat) (items : List (String × String))
deriving DecidableEq, Repr

/-- Modelled from the spec: a parsed SMBIOS record has an opaque handle
(string form), an enumerated type code (absent for records whose type the
parser could not determine), and a field map (data model, section 3). -/
structure Record where
  handle : String
  type : Option String
  fields : List (String × FieldValue)
deriving DecidableEq, Repr

/-- Modelled from the spec: a Group is one association record's item list,
holding the group name (taken from a naming field of a
GROUP_ASSOCIATIONS-type record), the owning record's handle and the
ordered list of (referenced-type, referenced-handle) items (data model,
section 3).  The parser produces groups in a stable insertion order, so
the whole collection is embedded as an ordered list. -/
structure Group where
  name : String
  handle : String
  items : List (String × String)
deriving DecidableEq, Repr

/- Modelled from the spec: constants.py is absent from the sources; the
record type codes are the SMBIOS/DMI type numbers in string form (the
rule catalog matches DMI types 0, 2, 3 and 4, and the association checker
speaks of "Type 14 handles (Group Associations)"). -/
namespace RecordType

def BIOS_RECORD : String := "0"

def BASEBOARD_RECORD : String := "2"

def CHASSIS_RECORD : String := "3"

def PROCESSOR_RECORD : String := "4"

def CACHE_RECORD : String := "7"

def GROUP_ASSOCIATIONS_RECORD : String := "14"

end RecordType

/- Modelled from the spec: constants.py is absent; the regular-expression
texts themselves are never inspected by the properties below (only which
field a FieldValueRegexpChecker is attached to matters), so they are kept
as named string constants mirroring constants.FieldValueRegexps. -/
namespace FieldValueRegexps

def DATE_REGEXP : String := "[0-9]\x7b2\x7d/[0-9]\x7b2\x7d/[0-9]\x7b4\x7d"

def DEVPATH_REGEXP : String := "/phys/.*"

def NUMBER_REGEXP : String := "[0-9]+"

end FieldValueRegexps

/- Modelled from the spec: constants.py is absent; the allowed-value
lists mirror constants.FieldValueEnums.  Their exact contents are not
inspected by the properties below, only their identity as rule-catalog
arguments. -/
namespace FieldValueEnums

def CHASSIS_LOCK : List String := ["Present", "Not Present"]

def PROCESSOR_TYPE : List String := ["Central Processor"]

def PROCESSOR_STATUS : List String := ["Populated, Enabled", "Unpopulated"]

end FieldValueEnums

/-- Modelled from the spec: matcher.py is absent; RecordTypeMatcher(type)
matches a record iff record.type equals the given type (section 4.1). -/
structure RecordTypeMatcher where
  record_type : String
deriving DecidableEq, Repr

/-- Modelled from the spec: a RecordTypeMatcher matches iff the record's
type code equals the matcher's type; a record with no recognizable type
simply fails to match (total, never fails). -/
def RecordTypeMatcher.is_matched_record (m : RecordTypeMatcher) (r : Record) : Bool :=
  r.type == some m.record_type

/-- Modelled from the spec: matcher.py is absent; Matcher holds a list of
sub-matchers and matches iff every sub-matcher matches (logical AND, the
empty list matches everything) (section 4.1).  RecordTypeMatcher is the
only sub-matcher kind appearing in the sources. -/
structure Matcher where
  matchers : List RecordTypeMatcher
deriving DecidableEq, Repr

/-- Modelled from the spec: conjunction of all sub-matchers. -/
def Matcher.is_matched_record (m : Matcher) (r : Record) : Bool :=
  m.matchers.all (fun sm => sm.is_matched_record r)

/-- Modelled from the spec: validator.py is absent; the per-record field
checkers of section 4.2, one constructor per checker class, each carrying
exactly the construction arguments used by the rule catalog. -/
inductive Checker where
  | FieldPresentChecker (field : String)
  | FieldValueRegexpChecker (field : String) (pattern : String)
  | FieldValueEnumChecker (field : String) (values : List String)
  | FieldItemCountChecker (field : String)
  | HandleFieldChecker (field : String) (record_type : String)
deriving DecidableEq, Repr

/-- Modelled from the spec: IndividualValidator holds an ordered list of
checkers and validates one record iff every checker passes
(section 4.3). -/
structure IndividualValidator where
  checkers : List Checker
deriving DecidableEq, Repr

/-- Rule, from rules.py: a matcher, a validator, a fixed error message and
a fixed action message.  The attribute names are plural as in the source
even though every catalog entry passes a single Matcher object and a
single IndividualValidator object. -/
structure Rule where
  matchers : Matcher
  validators : IndividualValidator
  err_msg : String
  action_msg : String
deriving DecidableEq, Repr

/-- Modelled from the spec: error_bucket.py is absent; the bucket is an
insertion-ordered mapping from a bucket key to the ordered sequence of
(error, action) pairs recorded under that key (sections 3 and 4.5). -/
structure ErrorBucket where
  bucket : List (String × List (String × String))
deriving DecidableEq, Repr

/-- Modelled from the spec: the bucket starts empty. -/
def ErrorBucket.empty : ErrorBucket := ⟨[]⟩

/-- Modelled from the spec: add_error(key, (error, action)) appends the
pair to the ordered sequence at the key, creating the key with an empty
sequence first if absent (section 4.5); a freshly created key takes the
last position of the insertion order, as a Python defaultdict does. -/
def ErrorBucket.add_error (b : ErrorBucket) (key : String) (pair : String × String) :
    ErrorBucket :=
  if b.bucket.any (fun p => p.1 == key) then
    ⟨b.bucket.map (fun p => if p.1 == key then (p.1, p.2 ++ [pair]) else p)⟩
  else
    ⟨b.bucket ++ [(key, [pair])]⟩

/-- The ordered sequence recorded under a key, the empty sequence when the
key is absent. -/
def bucketAt (b : ErrorBucket) (key : String) : List (String × String) :=
  match b.bucket.find? (fun p => p.1 == key) with
  | some p => p.2
  | none => []

/-- The static rule catalog of rules.py, embedded entry for entry in
declaration order with its error and action message texts verbatim. -/
def rules : List Rule := [
  -- Rules for Type 0 (BIOS information) record
  Rule.mk
    (Matcher.mk [RecordTypeMatcher.mk RecordType.BIOS_RECORD])
    (IndividualValidator.mk [
      Checker.FieldPresentChecker "Vendor"])
    "ERROR: Invalid Vendor field in Type 0 (BIOS Information) record."
    "ACTION: Please populate Vendor field with valid string.",
  Rule.mk
    (Matcher.mk [RecordTypeMatcher.mk RecordType.BIOS_RECORD])
    (IndividualValidator.mk [
      Checker.FieldPresentChecker "Version"])
    "ERROR: Invalid Version field in Type 0 (BIOS Information) record."
    ("ACTION: BIOS Version can be any string as long as it follows properly documented procedure.\n"
      ++ "If none available please follow the XX.YY.RR format."),
  Rule.mk
    (Matcher.mk [RecordTypeMatcher.mk RecordType.BIOS_RECORD])
    (IndividualValidator.mk [
      Checker.FieldPresentChecker "Release Date",
      Checker.FieldValueRegexpChecker "Release Date" FieldValueRegexps.DATE_REGEXP])
    "ERROR: Invalid Release Date field in Type 0 (BIOS Information) record."
    "ACTION: Please populate BIOS Release Date field with correct date (format is MM/DD/YYYY).",
  Rule.mk
    (Matcher.mk [RecordTypeMatcher.mk RecordType.BIOS_RECORD])
    (IndividualValidator.mk [
      Checker.FieldPresentChecker "ROM Size",
      Checker.FieldValueRegexpChecker "ROM Size" "\\d+ [kmgKMG]B"])
    "ERROR: Invalid ROM Size field in Type 0 (BIOS Information) record."
    ("ACTION: Please populate BIOS ROM Size field with valid size.\n"
      ++ "*BIOS ROM Size indicates the BIOS size not the flash part size.*"),
  -- Rules for Type 2 (Board Information) records
  Rule.mk
    (Matcher.mk [RecordTypeMatcher.mk RecordType.BASEBOARD_RECORD])
    (IndividualValidator.mk [
      Checker.FieldPresentChecker "Manufacturer"])
    "ERROR: Invalid Manufacturer field in Type 2 (Board Information) record."
    "ACTION: Please populate Manufacturer field with valid string.",
  Rule.mk
    (Matcher.mk [RecordTypeMatcher.mk RecordType.BASEBOARD_RECORD])
    (IndividualValidator.mk [
      Checker.FieldPresentChecker "Product Name"])
    "ERROR: Invalid Product field in Type 2 (Board Information) record."
    "ACTION: Please populate Product field with valid string.",
  Rule.mk
    (Matcher.mk [RecordTypeMatcher.mk RecordType.BASEBOARD_RECORD])
    (IndividualValidator.mk [
      Checker.FieldPresentChecker "Features"])
    "ERROR: Invalid Features field in Type 2 (Board information) record."
    ("ACTION: Please populate Features field with valid feature flags.\n"
      ++ "Bit0 - 1 for Motherboard, 0 for daughter boards; Bit3 - 1 for replaceable board."),
  Rule.mk
    (Matcher.mk [RecordTypeMatcher.mk RecordType.BASEBOARD_RECORD])
    (IndividualValidator.mk [
      Checker.FieldPresentChecker "Location In Chassis",
      Checker.FieldValueRegexpChecker "Location In Chassis" FieldValueRegexps.DEVPATH_REGEXP])
    "ERROR: Invalid Location In Chassis field in Type 2 (Board Information) record."
    ("ACTION: Please populate Location In Chassis field with valid devpath.\n"
      ++ "This field provides the devpath for the daughter board."),
  Rule.mk
    (Matcher.mk [RecordTypeMatcher.mk RecordType.BASEBOARD_RECORD])
    (IndividualValidator.mk [
      Checker.FieldPresentChecker "Chassis Handle"])
    "ERROR: Invalid Chassis Handle in Type 2 (Board Information) record."
    "ACTION: Please populate Chassis Handle field.",
  Rule.mk
    (Matcher.mk [RecordTypeMatcher.mk RecordType.BASEBOARD_RECORD])
    (IndividualValidator.mk [
      Checker.FieldPresentChecker "Contained Object Handles",
      Checker.FieldItemCountChecker "Contained Object Handles"])
    "ERROR: Invalid Contained Object Handles field in Type 2 (Board Information) record."
    "ACTION: Please populate Contained Object Handles field with valid handles.\n",
  -- Rules for Type 3 (Chassis) records
  Rule.mk
    (Matcher.mk [RecordTypeMatcher.mk RecordType.CHASSIS_RECORD])
    (IndividualValidator.mk [
      Checker.FieldPresentChecker "Manufacturer"])
    "ERROR: Invalid Manufacturer field in Type 3 (Chassis) record."
    "ACTION: Please populate Manufacturer field with valid string.",
  Rule.mk
    (Matcher.mk [RecordTypeMatcher.mk RecordType.CHASSIS_RECORD])
    (IndividualValidator.mk [
      Checker.FieldPresentChecker "Type"])
    "ERROR: Invalid Type field in Type 3 (Chassis) record."
    "ACTION: Please populate Type field with valid string.",
  Rule.mk
    (Matcher.mk [RecordTypeMatcher.mk RecordType.CHASSIS_RECORD])
    (IndividualValidator.mk [
      Checker.FieldPresentChecker "Lock",
      Checker.FieldValueEnumChecker "Lock" FieldValueEnums.CHASSIS_LOCK])
    "ERROR: Invalid Lock field in Type 3 (Chassis) record."
    ("ACTION: Please populate Lock field with valid string.\n"
      ++ "Valid Lock Status: "
      ++ String.intercalate ", " FieldValueEnums.CHASSIS_LOCK),
  Rule.mk
    (Matcher.mk [RecordTypeMatcher.mk RecordType.CHASSIS_RECORD])
    (IndividualValidator.mk [
      Checker.FieldPresentChecker "Contained Elements",
      Checker.FieldValueRegexpChecker "Contained Elements" FieldValueRegexps.NUMBER_REGEXP])
    "ERROR: Invalid Contained Elements field in Type 3 (Chassis) record."
    "ACTION: Please populate Contained Elements field with valid number.",
  -- Rules for Type 4 (Processor Information) records
  Rule.mk
    (Matcher.mk [RecordTypeMatcher.mk RecordType.PROCESSOR_RECORD])
    (IndividualValidator.mk [
      Checker.FieldPresentChecker "Socket Designation"])
    "ERROR: Invalid Socket Designation field in Type 4 (Processor Information) record."
    "ACTION: Please populate Socket Designation field with valid string.\n",
  Rule.mk
    (Matcher.mk [RecordTypeMatcher.mk RecordType.PROCESSOR_RECORD])
    (IndividualValidator.mk [
      Checker.FieldPresentChecker "Type",
      Checker.FieldValueEnumChecker "Type" FieldValueEnums.PROCESSOR_TYPE])
    "ERROR: Invalid Type field in Type 4 (Processor Information) record."
    ("ACTION: Please populate Type field with valid string.\n"
      ++ "Valid Processor Type(s): "
      ++ String.intercalate ", " FieldValueEnums.PROCESSOR_TYPE),
  Rule.mk
    (Matcher.mk [RecordTypeMatcher.mk RecordType.PROCESSOR_RECORD])
    (IndividualValidator.mk [
      Checker.FieldPresentChecker "Status",
      Checker.FieldValueEnumChecker "Status" FieldValueEnums.PROCESSOR_STATUS])
    "ERROR: Invalid Status field in Type 4 (Processor Information) record."
    ("ACTION: Please populate Status field with valid string.\n"
      ++ "Valid Status: "
      ++ String.intercalate ", " FieldValueEnums.PROCESSOR_STATUS),
  Rule.mk
    (Matcher.mk [RecordTypeMatcher.mk RecordType.PROCESSOR_RECORD])
    (IndividualValidator.mk [
      Checker.FieldPresentChecker "L1 Cache Handle",
      Checker.HandleFieldChecker "L1 Cache Handle" RecordType.CACHE_RECORD])
    "ERROR: Invalid L1 Cache Handle field in Type 4 (Processor Information) record."
    "ACTION: Please populate L1 Cache Handle field with valid handle",
  Rule.mk
    (Matcher.mk [RecordTypeMatcher.mk RecordType.PROCESSOR_RECORD])
    (IndividualValidator.mk [
      Checker.FieldPresentChecker "L2 Cache Handle",
      Checker.HandleFieldChecker "L2 Cache Handle" RecordType.CACHE_RECORD])
    "ERROR: Invalid L2 Cache Handle field in Type 4 (Processor Information) record."
    "ACTION: Please populate L2 Cache Handle field with valid handle",
  Rule.mk
    (Matcher.mk [RecordTypeMatcher.mk RecordType.PROCESSOR_RECORD])
    (IndividualValidator.mk [
      Checker.FieldPresentChecker "L3 Cache Handle",
      Checker.HandleFieldChecker "L3 Cache Handle" RecordType.CACHE_RECORD])
    "ERROR: Invalid L3 Cache Handle field in Type 4 (Processor Information) record."
    "ACTION: Please populate L3 Cache Handle field with valid handle",
  Rule.mk
    (Matcher.mk [RecordTypeMatcher.mk RecordType.PROCESSOR_RECORD])
    (IndividualValidator.mk [
      Checker.FieldPresentChecker "Core Count",
      Checker.FieldValueRegexpChecker "Core Count" FieldValueRegexps.NUMBER_REGEXP])
    "ERROR: Invalid Core Count field in Type 4 (Processor Information) record."
    "ACTION: Please populate Core Count field with valid number.\n",
  Rule.mk
    (Matcher.mk [RecordTypeMatcher.mk RecordType.PROCESSOR_RECORD])
    (IndividualValidator.mk [
      Checker.FieldPresentChecker "Core Enabled",
      Checker.FieldValueRegexpChecker "Core Enabled" FieldValueRegexps.NUMBER_REGEXP])
    "ERROR: Invalid Core Enabled field in Type 4 (Processor Information) record."
    "ACTION: Please populate Core Enabled field with valid number.\n",
  Rule.mk
    (Matcher.mk [RecordTypeMatcher.mk RecordType.PROCESSOR_RECORD])
    (IndividualValidator.mk [
      Checker.FieldPresentChecker "Thread Count",
      Checker.FieldValueRegexpChecker "Thread Count" FieldValueRegexps.NUMBER_REGEXP])
    "ERROR: Invalid Thread Count field in Type 4 (Processor Information) record."
    "ACTION: Please populate Thread Count field with valid number.\n"]

/-- Boolean test that the first character list is an initial segment of the
second; used to recognize group names by their naming convention. -/
def charListLeads : List Char → List Char → Bool
  | [], _ => true
  | _ :: _, [] => false
  | c :: cs, d :: ds => c == d && charListLeads cs ds

/-- Modelled from the spec: die groups are the groups whose name follows
the die naming convention ("names identifying a memory die, e.g. dieN",
section 4.3 step 1); the test data uses die0, die1, ... -/
def isDieName (s : String) : Bool := charListLeads "die".data s.data

/-- Modelled from the spec: controller groups are the groups whose name
follows the integrated-memory-controller naming convention ("names
identifying an integrated memory controller, e.g. IMCn", section 4.3
step 1); the test data uses IMC0, IMC1, ... -/
def isControllerName (s : String) : Bool := charListLeads "IMC".data s.data

/-- The die groups of a group collection, in collection order. -/
def dieGroups (gs : List Group) : List Group :=
  gs.filter (fun g => isDieName g.name)

/-- The controller groups of a group collection, in collection order. -/
def controllerGroups (gs : List Group) : List Group :=
  gs.filter (fun g => isControllerName g.name)

/-- The referenced handles of a group's item list, in item order. -/
def itemHandles (g : Group) : List String :=
  g.items.map (fun it => it.2)

/-- The owning handles of the controller groups, in collection order. -/
def controllerHandles (gs : List Group) : List String :=
  (controllerGroups gs).map (fun g => g.handle)

/-- Error text of the controller membership check (section 4.3 step 2). -/
def membershipMsg (handle name : String) : String :=
  "Memory Controller Handle " ++ handle ++ " (" ++ name
    ++ ") is not listed in any die record."

/-- Error text of the die non-emptiness check (section 4.3 step 3). -/
def emptinessMsg (handle name : String) : String :=
  "There is no memory controller handle in items of Die Handle " ++ handle
    ++ " (" ++ name ++ ")."

/-- Error text of the item-type homogeneity check (section 4.3 step 4). -/
def homogeneityMsg (handle name : String) : String :=
  "Some items in Handle " ++ handle ++ " (" ++ name
    ++ ") are not Type 14 handles (Group Associations)."

/-- Error text of the single-ownership check (section 4.3 step 5). -/
def conflictMsg (dieHandle dieName ctrlHandle firstHandle : String) : String :=
  "In items of Die Handle " ++ dieHandle ++ " (" ++ dieName
    ++ "), memory controller handle " ++ ctrlHandle
    ++ " was belong to another die record (" ++ firstHandle ++ ")."

/-- Modelled from the spec: the controller membership check; for every
controller group, its owning handle must appear as an item's referenced
handle within at least one die group's item list (section 4.3 step 2). -/
def membershipMsgs (gs : List Group) : List String :=
  (controllerGroups gs).filterMap (fun cg =>
    if (dieGroups gs).any (fun dg => (itemHandles dg).contains cg.handle) then none
    else some (membershipMsg cg.handle cg.name))

/-- Modelled from the spec: the die non-emptiness check; every die group's
item list must contain at least one item whose referenced handle belongs
to a known controller group (section 4.3 step 3). -/
def emptinessMsgs (gs : List Group) : List String :=
  (dieGroups gs).filterMap (fun dg =>
    if (itemHandles dg).any (fun h => (controllerHandles gs).contains h) then none
    else some (emptinessMsg dg.handle dg.name))

/-- Whether a referenced handle resolves to an existing record of
GROUP_ASSOCIATIONS type; an unresolved reference is a validation failure,
not a crash (data model, section 3). -/
def resolvesToGroupRecord (records : List Record) (h : String) : Bool :=
  match records.find? (fun r => r.handle == h) with
  | some r => r.type == some RecordType.GROUP_ASSOCIATIONS_RECORD
  | none => false

/-- Modelled from the spec: the item-type homogeneity check; every item of
a controller group must resolve to a Type 14 (Group Associations) record
(section 4.3 step 4). -/
def homogeneityMsgs (records : List Record) (gs : List Group) : List String :=
  (controllerGroups gs).filterMap (fun cg =>
    if (itemHandles cg).all (fun h => resolvesToGroupRecord records h) then none
    else some (homogeneityMsg cg.handle cg.name))

/-- Lookup in an insertion-ordered association list of strings. -/
def lookupStr (l : List (String × String)) (k : String) : Option String :=
  match l.find? (fun p => p.1 == k) with
  | some p => some p.2
  | none => none

/-- Modelled from the spec: one item step of the single-ownership scan
(section 4.3 step 5).  The accumulator carries the reverse index from
controller handle to the first die handle observed to contain it,
together with the conflict messages emitted so far; a handle already
owned by a different die emits a conflict naming the original owner and
leaves the index unchanged (the earliest-discovered owner stays
authoritative). -/
def ownershipStep (ctrl : List String) (dieHandle dieName : String)
    (acc : List (String × String) × List String) (it : String × String) :
    List (String × String) × List String :=
  if ctrl.contains it.2 then
    match lookupStr acc.1 it.2 with
    | none => (acc.1 ++ [(it.2, dieHandle)], acc.2)
    | some d0 =>
      if d0 == dieHandle then acc
      else (acc.1, acc.2 ++ [conflictMsg dieHandle dieName it.2 d0])
  else acc

/-- Modelled from the spec: the single-ownership check scans the die
groups in collection order, folding every die's items through
ownershipStep (section 4.3 step 5). -/
def ownershipMsgs (gs : List Group) : List String :=
  ((dieGroups gs).foldl
    (fun acc d => d.items.foldl (ownershipStep (controllerHandles gs) d.handle d.name) acc)
    ([], [])).2

/-- The first die group of the list containing the given handle among its
items, as stated by the claim about the single-ownership check: the
earliest-discovered die group is the authoritative owner. -/
def firstOwner (dies : List Group) (h : String) : Option String :=
  match dies.find? (fun d => (itemHandles d).contains h) with
  | some d => some d.handle
  | none => none

/-- Restatement of the per-die conflict messages in terms of firstOwner
over the already-scanned prefix of die groups, used to relate the
scanning fold to the earliest-owner description. -/
def specDieMsgs (ctrl : List String) (pre : List Group) (d : Group) : List String :=
  d.items.filterMap (fun it =>
    if ctrl.contains it.2 then
      match firstOwner pre it.2 with
      | some d0 => if d0 == d.handle then none else some (conflictMsg d.handle d.name it.2 d0)
      | none => none
    else none)

/-- Restatement of the whole single-ownership scan via specDieMsgs. -/
def ownershipSpecGo (ctrl : List String) (pre : List Group) : List Group → List String
  | [] => []
  | d :: rest => specDieMsgs ctrl pre d ++ ownershipSpecGo ctrl (pre ++ [d]) rest

/-- Restatement of ownershipMsgs in terms of the earliest-discovered
owner, to be proved equal to the scanning fold. -/
def ownershipSpec (gs : List Group) : List String :=
  ownershipSpecGo (controllerHandles gs) [] (dieGroups gs)

/-- Modelled from the spec: insertion into the error-message dictionary
returned by a whole-set validator.  Every finding maps to the empty
action, so inserting an already-present key rewrites its value with the
value it already has; the embedding keeps the dictionary unchanged in
that case, which matches Python's insertion-ordered dict assignment. -/
def dictInsert (d : List (String × String)) (k v : String) : List (String × String) :=
  if d.any (fun p => p.1 == k) then d else d ++ [(k, v)]

/-- Folding a message list into an error-message dictionary, each message
keyed to the empty action. -/
def msgsToDict (msgs : List String) (acc : List (String × String)) :
    List (String × String) :=
  msgs.foldl (fun d m => dictInsert d m "") acc

/-- Modelled from the spec: the cross-record association consistency
checker is constructed from the whole record map and group collection
(section 4.3). -/
structure MemoryGroupAssociationsChecker where
  records : List Record
  groups : List Group

/-- The concatenation of the findings of the four emitting association
checks, in the order the spec lists them (section 4.3 steps 2 to 5);
every check runs over the full data, none short-circuits another. -/
def MemoryGroupAssociationsChecker.allMsgs (c : MemoryGroupAssociationsChecker) :
    List String :=
  membershipMsgs c.groups ++ emptinessMsgs c.groups
    ++ homogeneityMsgs c.records c.groups ++ ownershipMsgs c.groups

/-- Modelled from the spec: validate() returns the mapping from each
generated error message to an empty action; an empty mapping signals full
topology consistency (section 4.3). -/
def MemoryGroupAssociationsChecker.validate (c : MemoryGroupAssociationsChecker) :
    List (String × String) :=
  msgsToDict c.allMsgs []

/-- Modelled from the spec: the fixed table of required record types and
their human labels used by RecordsPresenceChecker; the design document
names the baseboard/Motherboard requirement (section 4.3). -/
def requiredRecords : List (String × String) :=
  [(RecordType.BASEBOARD_RECORD, "Motherboard")]

/-- The missing-record messages for a required-type table: one finding per
required type absent from the record set (section 4.3). -/
def missingMsgs (table : List (String × String)) (records : List Record) : List String :=
  table.filterMap (fun tl =>
    if records.any (fun r => r.type == some tl.1) then none
    else some (tl.2 ++ " SMBIOS record is missing."))

/-- Modelled from the spec: the whole-set presence checker is constructed
from the record map and group collection (section 4.3). -/
structure RecordsPresenceChecker where
  records : List Record
  groups : List Group

/-- Modelled from the spec: validate() returns a mapping from each
missing-record message to an empty action, one entry per required type
absent from the records; empty when all requirements are satisfied
(section 4.3). -/
def RecordsPresenceChecker.validate (c : RecordsPresenceChecker) :
    List (String × String) :=
  msgsToDict (missingMsgs requiredRecords c.records) []

/-- The value of a named field of a record, if present. -/
def Record.fieldValue (r : Record) (f : String) : Option FieldValue :=
  match r.fields.find? (fun p => p.1 == f) with
  | some p => some p.2
  | none => none

/-- Modelled from the spec: the per-record field checkers of section 4.2.
Regular-expression matching is a capability of the host language's regex
library, so it enters as an explicit matching function (pattern, value to
Bool); every other checker is fully determined by the design document.
FieldPresentChecker fails on an absent field or an empty scalar;
the value-shape checkers fail when the field is absent or has the wrong
shape; HandleFieldChecker resolves the scalar value as a handle in the
record map and demands the expected record type. -/
def checkerHolds (matchRegexp : String → String → Bool) (records : List Record)
    (c : Checker) (r : Record) : Bool :=
  match c with
  | Checker.FieldPresentChecker f =>
    match r.fieldValue f with
    | some (FieldValue.scalar v) => !(v == "")
    | some _ => true
    | none => false
  | Checker.FieldValueRegexpChecker f pat =>
    match r.fieldValue f with
    | some (FieldValue.scalar v) => matchRegexp pat v
    | _ => false
  | Checker.FieldValueEnumChecker f vs =>
    match r.fieldValue f with
    | some (FieldValue.scalar v) => vs.contains v
    | _ => false
  | Checker.FieldItemCountChecker f =>
    match r.fieldValue f with
    | some (FieldValue.itemList n its) => !(its.isEmpty) && (its.length == n)
    | _ => false
  | Checker.HandleFieldChecker f t =>
    match r.fieldValue f with
    | some (FieldValue.scalar v) =>
      match records.find? (fun rec => rec.handle == v) with
      | some rec => rec.type == some t
      | none => false
    | _ => false

/-- Modelled from the spec: IndividualValidator.validate(record) is true
iff every checker in the list passes (section 4.3). -/
def IndividualValidator.validate (matchRegexp : String → String → Bool)
    (records : List Record) (v : IndividualValidator) (r : Record) : Bool :=
  v.checkers.all (fun c => checkerHolds matchRegexp records c r)

/-- Modelled from the spec: the Orchestrator (section 4.4).  For each
record of the set, in record-map order, each rule of the catalog is
applied in declaration order: when the rule's matcher matches and its
validator fails, the rule's error and action messages are recorded under
the record's handle.  Then each whole-set validator runs once per run and
its findings are folded into the bucket under the fixed global key. -/
def runOrchestrator (matchRegexp : String → String → Bool) (ruleList : List Rule)
    (records : List Record) (groups : List Group) : ErrorBucket :=
  let perRecord := records.foldl (fun b r =>
    ruleList.foldl (fun b2 rule =>
      if rule.matchers.is_matched_record r then
        if IndividualValidator.validate matchRegexp records rule.validators r then b2
        else b2.add_error r.handle (rule.err_msg, rule.action_msg)
      else b2) b) ErrorBucket.empty
  let withPresence := ((RecordsPresenceChecker.mk records groups).validate).foldl
    (fun b kv => b.add_error "global" kv) perRecord
  ((MemoryGroupAssociationsChecker.mk records groups).validate).foldl
    (fun b kv => b.add_error "global" kv) withPresence

/-- Concrete non-compliant group collection exercising all association
checks at once, shaped after the validator test's bad data: controller
groups 0x0297 (IMC0), 0x0299 (IMC0) and 0x0298 (IMC1) are listed in no
die group; 0x0298's items include a handle resolving to no Group
Associations record; die 0x02C9 (die0) has no controller items; and
controller 0x029B is claimed by die 0x02CB (scanned first) and by die
0x02CC (die0, scanned second). -/
def badGroups : List Group := [
  Group.mk "IMC0" "0x0297" [],
  Group.mk "IMC0" "0x0299" [],
  Group.mk "IMC1" "0x0298" [("4", "0x0001")],
  Group.mk "IMC2" "0x029B" [],
  Group.mk "die0" "0x02C9" [],
  Group.mk "die1" "0x02CB" [("14", "0x029B")],
  Group.mk "die0" "0x02CC" [("14", "0x029B")]]

/-- Record map accompanying badGroups; the handle 0x0001 referenced by
controller group 0x0298 resolves to a record that is not of Group
Associations type. -/
def badRecords : List Record :=
  [Record.mk "0x0001" (some RecordType.PROCESSOR_RECORD) []]

/-- Concrete fully consistent topology: one controller group whose handle
is listed by the only die group, with no dangling item references. -/
def goodGroups : List Group := [
  Group.mk "IMC0" "0x0010" [],
  Group.mk "die0" "0x0020" [("14", "0x0010")]]

/-- Record map accompanying goodGroups. -/
def goodRecords : List Record :=
  [Record.mk "0x0010" (some RecordType.GROUP_ASSOCIATIONS_RECORD) [],
   Record.mk "0x0020" (some RecordType.GROUP_ASSOCIATIONS_RECORD) []]

/-- The conflict message one item of a die group contributes, given the
reverse ownership index at the moment the die's scan starts. -/
def itemConflict (ctrl : List String) (dieHandle dieName : String)
    (owner : List (String × String)) (it : String × String) : Option String :=
  if ctrl.contains it.2 then
    match lookupStr owner it.2 with
    | some d0 => if d0 == dieHandle then none else some (conflictMsg dieHandle dieName it.2 d0)
    | none => none
  else none

/-- Whether a rule pairs each of its FieldValueRegexpChecker entries with
a FieldPresentChecker for the same field. -/
def regexpPairedWithPresence (r : Rule) : Bool :=
  r.validators.checkers.all (fun c =>
    match c with
    | Checker.FieldValueRegexpChecker f _ =>
      r.validators.checkers.contains (Checker.FieldPresentChecker f)
    | _ => true)

/-- Whether a rule's matcher wraps exactly one RecordTypeMatcher whose
target is one of the four per-record rule types of the catalog (BIOS,
baseboard, chassis, processor) and the rule's checker list begins with a
FieldPresentChecker. -/
def ruleShape (r : Rule) : Bool :=
  (match r.matchers.matchers with
   | [m] =>
     [RecordType.BIOS_RECORD, RecordType.BASEBOARD_RECORD,
      RecordType.CHASSIS_RECORD, RecordType.PROCESSOR_RECORD].contains m.record_type
   | _ => false)
  && (match r.validators.checkers with
      | Checker.FieldPresentChecker _ :: _ => true
      | _ => false)

lemma mem_keys_dictInsert {d : List (String × String)} {k v m : String} :
    m ∈ (dictInsert d k v).map Prod.fst ↔ m ∈ d.map Prod.fst ∨ m = k := by
  unfold dictInsert
  by_cases hany : d.any (fun p => p.1 == k) = true
  · simp only [hany, if_true]
    constructor
    · exact Or.inl
    · rintro (hm | rfl)
      · exact hm
      · obtain ⟨p, hp, hpk⟩ := List.any_eq_true.mp hany
        exact List.mem_map.mpr ⟨p, hp, eq_of_beq hpk⟩
  · simp [hany]

lemma mem_keys_msgsToDict {msgs : List String} {acc : List (String × String)}
    {m : String} :
    m ∈ (msgsToDict msgs acc).map Prod.fst ↔ m ∈ acc.map Prod.fst ∨ m ∈ msgs := by
  induction msgs generalizing acc with
  | nil => simp [msgsToDict]
  | cons x xs ih =>
    show m ∈ (msgsToDict xs (dictInsert acc x "")).map Prod.fst ↔ _
    rw [ih, mem_keys_dictInsert]
    simp [or_assoc]

lemma updFst (k : String) (pair : String × String)
    (p : String × List (String × String)) :
    (if p.1 == k then (p.1, p.2 ++ [pair]) else p).1 = p.1 := by
  by_cases h : (p.1 == k) = true <;> simp [h]

lemma bucketAt_add_error_same (l : List (String × List (String × String)))
    (k : String) (pair : String × String) :
    bucketAt (ErrorBucket.add_error ⟨l⟩ k pair) k = bucketAt ⟨l⟩ k ++ [pair] := by
  by_cases hany : l.any (fun p => p.1 == k) = true
  · have hrw : ErrorBucket.add_error ⟨l⟩ k pair
        = ⟨l.map (fun p => if p.1 == k then (p.1, p.2 ++ [pair]) else p)⟩ := by
      unfold ErrorBucket.add_error
      rw [if_pos hany]
    rw [hrw]
    unfold bucketAt
    rw [List.find?_map]
    have hpred : ((fun p => p.1 == k) ∘ fun p => if p.1 == k then (p.1, p.2 ++ [pair]) else p)
        = (fun (p : String × List (String × String)) => p.1 == k) := by
      funext p
      show ((if p.1 == k then (p.1, p.2 ++ [pair]) else p).1 == k) = (p.1 == k)
      rw [updFst]
    rw [hpred]
    obtain ⟨p, hp, hpk⟩ := List.any_eq_true.mp hany
    have hsome : (l.find? (fun p => p.1 == k)).isSome :=
      List.find?_isSome.mpr ⟨p, hp, hpk⟩
    obtain ⟨q, hqfind⟩ := Option.isSome_iff_exists.mp hsome
    rw [hqfind]
    have hqk0 := List.find?_some hqfind
    have hqk : (q.1 == k) = true := hqk0
    simp [hqk, eq_of_beq hqk]
  · have hrw : ErrorBucket.add_error ⟨l⟩ k pair = ⟨l ++ [(k, [pair])]⟩ := by
      unfold ErrorBucket.add_error
      rw [if_neg hany]
    rw [hrw]
    unfold bucketAt
    rw [List.find?_append]
    have hnone : l.find? (fun p => p.1 == k) = none := by
      rw [List.find?_eq_none]
      intro p hp hpk
      exact hany (List.any_eq_true.mpr ⟨p, hp, hpk⟩)
    rw [hnone]
    simp

lemma bucketAt_add_error_other (l : List (String × List (String × String)))
    (k k2 : String) (pair : String × String) (hne : k2 ≠ k) :
    bucketAt (ErrorBucket.add_error ⟨l⟩ k pair) k2 = bucketAt ⟨l⟩ k2 := by
  by_cases hany : l.any (fun p => p.1 == k) = true
  · have hrw : ErrorBucket.add_error ⟨l⟩ k pair
        = ⟨l.map (fun p => if p.1 == k then (p.1, p.2 ++ [pair]) else p)⟩ := by
      unfold ErrorBucket.add_error
      rw [if_pos hany]
    rw [hrw]
    unfold bucketAt
    rw [List.find?_map]
    have hpred : ((fun p => p.1 == k2) ∘ fun p => if p.1 == k then (p.1, p.2 ++ [pair]) else p)
        = (fun (p : String × List (String × String)) => p.1 == k2) := by
      funext p
      show ((if p.1 == k then (p.1, p.2 ++ [pair]) else p).1 == k2) = (p.1 == k2)
      rw [updFst]
    rw [hpred]
    cases hfind : l.find? (fun p => p.1 == k2) with
    | none => simp
    | some p =>
      have hpk20 := List.find?_some hfind
      have hpk2 : (p.1 == k2) = true := hpk20
      have hpk : p.1 ≠ k := by
        intro hpk
        exact hne (by rw [← hpk, eq_of_beq hpk2])
      simp [hpk]
  · have hrw : ErrorBucket.add_error ⟨l⟩ k pair = ⟨l ++ [(k, [pair])]⟩ := by
      unfold ErrorBucket.add_error
      rw [if_neg hany]
    rw [hrw]
    unfold bucketAt
    rw [List.find?_append]
    have hkk2 : (k == k2) = false := beq_eq_false_iff_ne.mpr (fun h => hne h.symm)
    cases hfind : l.find? (fun p => p.1 == k2) with
    | none => simp [hkk2]
    | some p => simp

/-- Claim C7: ErrorBucket.add_error is order-preserving and additive.
Appending a pair for a key appends it to that key's ordered sequence
(creating the key with an empty sequence first when absent), leaves every
other key's sequence untouched, and the test sequence add_error('1', a);
add_error('1', b); add_error('2', c) from the empty bucket leaves
bucket['1'] = [a, b] and bucket['2'] = [c]. -/
theorem error_bucket_add_error_spec (b : ErrorBucket) (k k2 : String)
    (pair pa pb pc : String × String) (hne : k2 ≠ k) :
    bucketAt (b.add_error k pair) k = bucketAt b k ++ [pair]
    ∧ bucketAt (b.add_error k pair) k2 = bucketAt b k2
    ∧ (((ErrorBucket.empty.add_error "1" pa).add_error "1" pb).add_error "2" pc).bucket
        = [("1", [pa, pb]), ("2", [pc])] := by
  refine ⟨bucketAt_add_error_same b.bucket k pair,
    bucketAt_add_error_other b.bucket k k2 pair hne, ?_⟩
  have h11 : (("1" : String) == "1") = true := by decide
  have h12 : (("1" : String) == "2") = false := by decide
  simp [ErrorBucket.empty, ErrorBucket.add_error, h11, h12]

/-- Witness for claim C7 at a concrete bucket, keys and pair. -/
theorem error_bucket_add_error_spec_witness :
    bucketAt (ErrorBucket.empty.add_error "1" ("err_1", "action_1")) "1"
      = bucketAt ErrorBucket.empty "1" ++ [("err_1", "action_1")] :=
  (error_bucket_add_error_spec ErrorBucket.empty "1" "2" ("err_1", "action_1")
    ("err_1", "action_1") ("err_2", "action_2") ("err_3", "action_3")
    (by decide)).1

/-- Claim C6: a Matcher wrapping a single RecordTypeMatcher for type T
matches a record exactly when the record's type is T; a record of absent
or unknown type yields false rather than a failure, and a Matcher with an
empty sub-matcher list matches every record. -/
theorem matcher_record_type_spec (T : String) (r : Record) :
    ((Matcher.mk [RecordTypeMatcher.mk T]).is_matched_record r = true ↔ r.type = some T)
    ∧ (Matcher.mk []).is_matched_record r = true := by
  constructor
  · simp [Matcher.is_matched_record, RecordTypeMatcher.is_matched_record]
  · simp [Matcher.is_matched_record]

/-- Witness for claim C6 at a concrete type and record. -/
theorem matcher_record_type_spec_witness :
    (Matcher.mk [RecordTypeMatcher.mk "0"]).is_matched_record
      (Record.mk "0x0000" (some "0") []) = true :=
  (matcher_record_type_spec "0" (Record.mk "0x0000" (some "0") [])).1.mpr rfl

/-- Claim C1: on the record set shaped after the non-compliant test data
(controller handles 0x0297, 0x0299 and 0x0298 listed in no die group,
0x0298 owning an item that resolves to no GROUP_ASSOCIATIONS record, die
0x02C9 without controller items, and controller 0x029B claimed first by
die 0x02CB and then by die 0x02CC), validate() returns a mapping whose
key set is exactly the six expected findings: three membership findings,
one die-emptiness finding, one homogeneity finding and one
ownership-conflict finding naming 0x02CB as the original owner - no more
and no fewer. -/
theorem bad_data_six_findings :
    ((MemoryGroupAssociationsChecker.mk badRecords badGroups).validate).map Prod.fst = [
      "Memory Controller Handle 0x0297 (IMC0) is not listed in any die record.",
      "Memory Controller Handle 0x0299 (IMC0) is not listed in any die record.",
      "Memory Controller Handle 0x0298 (IMC1) is not listed in any die record.",
      "There is no memory controller handle in items of Die Handle 0x02C9 (die0).",
      "Some items in Handle 0x0298 (IMC1) are not Type 14 handles (Group Associations).",
      "In items of Die Handle 0x02CC (die0), memory controller handle 0x029B was belong to another die record (0x02CB)."] := by
  decide

/-- Claim C9: in every rule of the static catalog, a
FieldValueRegexpChecker for a field is always accompanied by a
FieldPresentChecker for the same field in the same rule's checker
list. -/
theorem rules_regexp_paired_with_presence :
    rules.all regexpPairedWithPresence = true := by decide

/-- Claim C10: every catalog rule is built from a single Matcher wrapping
exactly one RecordTypeMatcher targeting one of the four per-record rule
types (BIOS, baseboard, chassis, processor) and a single
IndividualValidator whose checker list begins with a
FieldPresentChecker. -/
theorem rules_shape_invariant : rules.all ruleShape = true := by decide

lemma bool_eq_false {b : Bool} (h : ¬ b = true) : b = false := by
  cases b
  · rfl
  · exact absurd rfl h

lemma lookupStr_append (l1 l2 : List (String × String)) (h : String) :
    lookupStr (l1 ++ l2) h = (lookupStr l1 h).or (lookupStr l2 h) := by
  unfold lookupStr
  rw [List.find?_append]
  cases l1.find? (fun p => p.1 == h) <;> simp

lemma lookupStr_single (k v h : String) :
    lookupStr [(k, v)] h = if (k == h) = true then some v else none := by
  by_cases hk : (k == h) = true <;> simp [lookupStr, List.find?, hk]

lemma itemConflict_insert_self (ctrl : List String) (dh dn : String)
    (owner : List (String × String)) (hnd : String)
    (hnone : lookupStr owner hnd = none) (it2 : String × String) :
    itemConflict ctrl dh dn (owner ++ [(hnd, dh)]) it2
      = itemConflict ctrl dh dn owner it2 := by
  unfold itemConflict
  by_cases hc : ctrl.contains it2.2 = true
  · rw [if_pos hc, if_pos hc, lookupStr_append, lookupStr_single]
    by_cases hk : (hnd == it2.2) = true
    · rw [if_pos hk]
      have he : it2.2 = hnd := (eq_of_beq hk).symm
      rw [he, hnone]
      simp
    · rw [if_neg hk]
      cases lookupStr owner it2.2 <;> simp
  · rw [if_neg hc, if_neg hc]

lemma scan_items_snd (ctrl : List String) (dh dn : String)
    (items : List (String × String)) :
    ∀ owner msgs, (items.foldl (ownershipStep ctrl dh dn) (owner, msgs)).2
      = msgs ++ items.filterMap (itemConflict ctrl dh dn owner) := by
  induction items with
  | nil => intro owner msgs; simp
  | cons it rest ih =>
    intro owner msgs
    rw [List.foldl_cons]
    by_cases hc : ctrl.contains it.2 = true
    · have hcm : it.2 ∈ ctrl := by simpa using hc
      cases hl : lookupStr owner it.2 with
      | none =>
        have hstep : ownershipStep ctrl dh dn (owner, msgs) it
            = (owner ++ [(it.2, dh)], msgs) := by
          simp [ownershipStep, hcm, hl]
        rw [hstep, ih]
        have hcongr : rest.filterMap (itemConflict ctrl dh dn (owner ++ [(it.2, dh)]))
            = rest.filterMap (itemConflict ctrl dh dn owner) := by
          exact List.filterMap_congr (fun x _ =>
            itemConflict_insert_self ctrl dh dn owner it.2 hl x)
        rw [hcongr]
        have hnone : itemConflict ctrl dh dn owner it = none := by
          simp [itemConflict, hcm, hl]
        rw [List.filterMap_cons, hnone]
      | some d0 =>
        by_cases hd0 : (d0 == dh) = true
        · have hde : d0 = dh := eq_of_beq hd0
          have hstep : ownershipStep ctrl dh dn (owner, msgs) it = (owner, msgs) := by
            simp [ownershipStep, hcm, hl, hde]
          have hnone : itemConflict ctrl dh dn owner it = none := by
            simp [itemConflict, hcm, hl, hde]
          rw [hstep, ih, List.filterMap_cons, hnone]
        · have hd0f : (d0 == dh) = false := bool_eq_false hd0
          have hdn : d0 ≠ dh := ne_of_beq_false hd0f
          have hstep : ownershipStep ctrl dh dn (owner, msgs) it
              = (owner, msgs ++ [conflictMsg dh dn it.2 d0]) := by
            simp [ownershipStep, hcm, hl, hdn]
          have hsome : itemConflict ctrl dh dn owner it
              = some (conflictMsg dh dn it.2 d0) := by
            simp [itemConflict, hcm, hl, hdn]
          rw [hstep, ih, List.filterMap_cons, hsome]
          simp
    · have hcm : it.2 ∉ ctrl := by simpa using hc
      have hstep : ownershipStep ctrl dh dn (owner, msgs) it = (owner, msgs) := by
        simp [ownershipStep, hcm]
      have hnone : itemConflict ctrl dh dn owner it = none := by
        simp [itemConflict, hcm]
      rw [hstep, ih, List.filterMap_cons, hnone]

lemma scan_items_fst (ctrl : List String) (dh dn : String)
    (items : List (String × String)) :
    ∀ owner msgs (h : String),
    lookupStr (items.foldl (ownershipStep ctrl dh dn) (owner, msgs)).1 h
      = (lookupStr owner h).or
          (if (ctrl.contains h && (items.map (fun it => it.2)).contains h) = true
           then some dh else none) := by
  induction items with
  | nil =>
    intro owner msgs h
    simp
  | cons it rest ih =>
    intro owner msgs h
    rw [List.foldl_cons]
    by_cases hc : ctrl.contains it.2 = true
    · have hcm : it.2 ∈ ctrl := by simpa using hc
      cases hl : lookupStr owner it.2 with
      | none =>
        have hstep : ownershipStep ctrl dh dn (owner, msgs) it
            = (owner ++ [(it.2, dh)], msgs) := by
          simp [ownershipStep, hcm, hl]
        rw [hstep, ih, lookupStr_append, lookupStr_single]
        by_cases hk : (it.2 == h) = true
        · rw [if_pos hk]
          have he : h = it.2 := (eq_of_beq hk).symm
          rw [he, hl]
          simp [hcm]
        · have hk2 : (h == it.2) = false := by
            rw [beq_eq_false_iff_ne]
            intro he
            exact (ne_of_beq_false (bool_eq_false hk)) he.symm
          rw [if_neg hk, Option.or_none, List.map_cons, List.contains_cons, hk2,
            Bool.false_or]
      | some d0 =>
        have hstep1 : (ownershipStep ctrl dh dn (owner, msgs) it).1 = owner := by
          by_cases hd0 : (d0 == dh) = true
          · have hde : d0 = dh := eq_of_beq hd0
            simp [ownershipStep, hcm, hl, hde]
          · have hdn : d0 ≠ dh := ne_of_beq_false (bool_eq_false hd0)
            simp [ownershipStep, hcm, hl, hdn]
        have hpair : ownershipStep ctrl dh dn (owner, msgs) it
            = (owner, (ownershipStep ctrl dh dn (owner, msgs) it).2) := by
          have h2 : ownershipStep ctrl dh dn (owner, msgs) it
              = ((ownershipStep ctrl dh dn (owner, msgs) it).1,
                 (ownershipStep ctrl dh dn (owner, msgs) it).2) := rfl
          rw [hstep1] at h2
          exact h2
        rw [hpair, ih]
        by_cases hk : (h == it.2) = true
        · have he : h = it.2 := eq_of_beq hk
          rw [he, hl]
          simp
        · rw [List.map_cons, List.contains_cons, bool_eq_false hk, Bool.false_or]
    · have hcm : it.2 ∉ ctrl := by simpa using hc
      have hstep : ownershipStep ctrl dh dn (owner, msgs) it = (owner, msgs) := by
        simp [ownershipStep, hcm]
      rw [hstep, ih]
      by_cases hk : (h == it.2) = true
      · have he : h = it.2 := eq_of_beq hk
        rw [he, List.map_cons, List.contains_cons]
        have hcf : ctrl.contains it.2 = false := bool_eq_false hc
        rw [hcf]
        simp
      · rw [List.map_cons, List.contains_cons, bool_eq_false hk, Bool.false_or]

lemma scan_dies_snd (ctrl : List String) :
    ∀ (dies pre : List Group) (owner : List (String × String)) (msgs : List String),
    (∀ h, lookupStr owner h
        = if ctrl.contains h = true then firstOwner pre h else none) →
    (dies.foldl (fun acc d => d.items.foldl (ownershipStep ctrl d.handle d.name) acc)
        (owner, msgs)).2
      = msgs ++ ownershipSpecGo ctrl pre dies := by
  intro dies
  induction dies with
  | nil =>
    intro pre owner msgs hOwner
    simp [ownershipSpecGo]
  | cons d rest ih =>
    intro pre owner msgs hOwner
    rw [List.foldl_cons]
    have hOwner2 : ∀ h,
        lookupStr (d.items.foldl (ownershipStep ctrl d.handle d.name) (owner, msgs)).1 h
          = if ctrl.contains h = true then firstOwner (pre ++ [d]) h else none := by
      intro h
      rw [scan_items_fst ctrl d.handle d.name d.items owner msgs h, hOwner h]
      by_cases hch : ctrl.contains h = true
      · rw [if_pos hch, if_pos hch]
        unfold firstOwner
        rw [List.find?_append]
        cases hfp : pre.find? (fun d2 => (itemHandles d2).contains h) with
        | some g => simp [hch]
        | none =>
          have hhands : (d.items.map (fun it => it.2)).contains h
              = (itemHandles d).contains h := rfl
          rw [hhands]
          cases hd : (itemHandles d).contains h with
          | false =>
            have hdm : h ∉ itemHandles d := by simpa using hd
            simp [List.find?, hdm]
          | true =>
            have hdm : h ∈ itemHandles d := by simpa using hd
            have hcm2 : h ∈ ctrl := by simpa using hch
            simp [List.find?, hdm, hcm2]
      · rw [if_neg hch, if_neg hch, bool_eq_false hch]
        simp
    have hinner : d.items.foldl (ownershipStep ctrl d.handle d.name) (owner, msgs)
        = ((d.items.foldl (ownershipStep ctrl d.handle d.name) (owner, msgs)).1,
           (d.items.foldl (ownershipStep ctrl d.handle d.name) (owner, msgs)).2) := rfl
    rw [hinner, ih (pre ++ [d]) _ _ hOwner2,
      scan_items_snd ctrl d.handle d.name d.items owner msgs]
    have hmsgs : d.items.filterMap (itemConflict ctrl d.handle d.name owner)
        = specDieMsgs ctrl pre d := by
      unfold specDieMsgs
      apply List.filterMap_congr
      intro it _
      unfold itemConflict
      by_cases hcit : ctrl.contains it.2 = true
      · rw [if_pos hcit, if_pos hcit, hOwner it.2, if_pos hcit]
      · rw [if_neg hcit, if_neg hcit]
    rw [hmsgs]
    show msgs ++ specDieMsgs ctrl pre d ++ ownershipSpecGo ctrl (pre ++ [d]) rest
      = msgs ++ ownershipSpecGo ctrl pre (d :: rest)
    rw [List.append_assoc]
    rfl

lemma ownershipMsgs_eq_spec (gs : List Group) :
    ownershipMsgs gs = ownershipSpec gs := by
  unfold ownershipMsgs ownershipSpec
  have h := scan_dies_snd (controllerHandles gs) (dieGroups gs) [] [] []
    (by
      intro h
      have h1 : lookupStr [] h = none := rfl
      have h2 : firstOwner [] h = none := rfl
      rw [h1, h2, ite_self])
  simpa using h

lemma ownershipSpecGo_append (ctrl : List String) (xs : List Group) :
    ∀ (p ys : List Group), ownershipSpecGo ctrl p (xs ++ ys)
      = ownershipSpecGo ctrl p xs ++ ownershipSpecGo ctrl (p ++ xs) ys := by
  induction xs with
  | nil => intro p ys; simp [ownershipSpecGo]
  | cons x xs2 ih =>
    intro p ys
    show specDieMsgs ctrl p x ++ ownershipSpecGo ctrl (p ++ [x]) (xs2 ++ ys)
      = (specDieMsgs ctrl p x ++ ownershipSpecGo ctrl (p ++ [x]) xs2)
        ++ ownershipSpecGo ctrl (p ++ x :: xs2) ys
    rw [ih (p ++ [x]) ys]
    simp [List.append_assoc]

lemma specGo_eq_nil (ctrl : List String) (all : List Group)
    (hsingle : ∀ h ∈ ctrl, ∀ d1 ∈ all, ∀ d2 ∈ all,
      h ∈ itemHandles d1 → h ∈ itemHandles d2 → d1.handle = d2.handle) :
    ∀ (dies pre : List Group), (∀ d ∈ pre, d ∈ all) → (∀ d ∈ dies, d ∈ all) →
      ownershipSpecGo ctrl pre dies = [] := by
  intro dies
  induction dies with
  | nil => intro pre hp hd; rfl
  | cons d rest ih =>
    intro pre hp hd
    show specDieMsgs ctrl pre d ++ ownershipSpecGo ctrl (pre ++ [d]) rest = []
    have hdall : d ∈ all := hd d (List.mem_cons_self d rest)
    have hhead : specDieMsgs ctrl pre d = [] := by
      unfold specDieMsgs
      rw [List.filterMap_eq_nil_iff]
      intro it hit
      by_cases hcit : ctrl.contains it.2 = true
      · rw [if_pos hcit]
        cases hfo : firstOwner pre it.2 with
        | none => rfl
        | some d0 =>
          unfold firstOwner at hfo
          cases hfp : pre.find? (fun d2 => (itemHandles d2).contains it.2) with
          | none => rw [hfp] at hfo; simp at hfo
          | some g =>
            rw [hfp] at hfo
            have hgd0 : g.handle = d0 := by simpa using hfo
            have hgpre : g ∈ pre := List.mem_of_find?_eq_some hfp
            have hgit0 := List.find?_some hfp
            have hgit : it.2 ∈ itemHandles g := by simpa using hgit0
            have hitd : it.2 ∈ itemHandles d := List.mem_map.mpr ⟨it, hit, rfl⟩
            have hcm : it.2 ∈ ctrl := by simpa using hcit
            have heq : g.handle = d.handle :=
              hsingle it.2 hcm g (hp g hgpre) d hdall hgit hitd
            rw [← hgd0, heq]
            simp
      · rw [if_neg hcit]
    rw [hhead, List.nil_append]
    refine ih (pre ++ [d]) ?_ ?_
    · intro x hx
      rcases List.mem_append.mp hx with hx1 | hx2
      · exact hp x hx1
      · rw [List.mem_singleton] at hx2
        rw [hx2]
        exact hdall
    · intro x hx
      exact hd x (List.mem_cons_of_mem d hx)

/-- Claim C2: whenever, scanning the die groups in the parser's stable
order, a controller handle occurring among a die group's items has its
earliest-discovered owner in a different die group, the single-ownership
check emits the conflict message naming the second die (handle and name),
the controller handle, and the earliest-discovered owning die handle,
which stays authoritative for every later conflict; the finding is a key
of the mapping returned by validate(). -/
theorem single_ownership_conflict (c : MemoryGroupAssociationsChecker) (d : Group)
    (h d0 : String)
    (hd : d ∈ dieGroups c.groups)
    (hctrl : h ∈ controllerHandles c.groups)
    (hin : h ∈ itemHandles d)
    (hfirst : firstOwner (dieGroups c.groups) h = some d0)
    (hne : d0 ≠ d.handle) :
    conflictMsg d.handle d.name h d0 ∈ (c.validate).map Prod.fst := by
  have hmem : conflictMsg d.handle d.name h d0 ∈ ownershipMsgs c.groups := by
    rw [ownershipMsgs_eq_spec]
    obtain ⟨pre, rest, hsplit⟩ := List.append_of_mem hd
    unfold ownershipSpec
    rw [hsplit, ownershipSpecGo_append]
    apply List.mem_append.mpr
    right
    show conflictMsg d.handle d.name h d0
      ∈ specDieMsgs (controllerHandles c.groups) ([] ++ pre) d
        ++ ownershipSpecGo (controllerHandles c.groups) (([] ++ pre) ++ [d]) rest
    apply List.mem_append.mpr
    left
    have hpre : firstOwner pre h = some d0 := by
      rw [hsplit] at hfirst
      unfold firstOwner at hfirst ⊢
      rw [List.find?_append] at hfirst
      cases hfp : pre.find? (fun d2 => (itemHandles d2).contains h) with
      | some g =>
        rw [hfp] at hfirst
        simpa using hfirst
      | none =>
        exfalso
        rw [hfp] at hfirst
        have hpd : (itemHandles d).contains h = true := by simpa using hin
        have hfd : List.find? (fun d2 => (itemHandles d2).contains h) (d :: rest)
            = some d := List.find?_cons_of_pos rest hpd
        rw [hfd] at hfirst
        have : d.handle = d0 := by simpa using hfirst
        exact hne this.symm
    unfold specDieMsgs
    apply List.mem_filterMap.mpr
    obtain ⟨it, hit, hit2⟩ := List.mem_map.mp hin
    refine ⟨it, hit, ?_⟩
    rw [hit2, List.nil_append]
    have hcc : (controllerHandles c.groups).contains h = true := by simpa using hctrl
    rw [if_pos hcc, hpre]
    have hbe : (d0 == d.handle) = false := beq_eq_false_iff_ne.mpr hne
    simp [hbe]
  apply mem_keys_msgsToDict.mpr
  right
  unfold MemoryGroupAssociationsChecker.allMsgs
  simp [hmem]

/-- Witness for claim C2 at the concrete non-compliant scenario: die
0x02CC (die0) claims controller 0x029B already owned by die 0x02CB. -/
theorem single_ownership_conflict_witness :
    conflictMsg "0x02CC" "die0" "0x029B" "0x02CB"
      ∈ ((MemoryGroupAssociationsChecker.mk badRecords badGroups).validate).map Prod.fst :=
  single_ownership_conflict (MemoryGroupAssociationsChecker.mk badRecords badGroups)
    (Group.mk "die0" "0x02CC" [("14", "0x029B")]) "0x029B" "0x02CB"
    (by decide) (by decide) (by decide) (by decide) (by decide)

/-- Claim C3: validate() never turns non-compliance into a failure; each
of the association checks runs over the full data, and every finding any
of them produces appears as a key of the returned mapping, so one call
can surface several unrelated findings at once. -/
theorem checker_accumulates_findings (c : MemoryGroupAssociationsChecker) (m : String)
    (hm : m ∈ membershipMsgs c.groups ∨ m ∈ emptinessMsgs c.groups
      ∨ m ∈ homogeneityMsgs c.records c.groups ∨ m ∈ ownershipMsgs c.groups) :
    m ∈ (c.validate).map Prod.fst := by
  apply mem_keys_msgsToDict.mpr
  right
  unfold MemoryGroupAssociationsChecker.allMsgs
  rcases hm with h1 | h1 | h1 | h1 <;> simp [h1]

/-- Witness for claim C3: the homogeneity finding of the concrete
non-compliant scenario reaches the returned mapping even though the
membership, emptiness and ownership checks also fail there. -/
theorem checker_accumulates_findings_witness :
    homogeneityMsg "0x0298" "IMC1"
      ∈ ((MemoryGroupAssociationsChecker.mk badRecords badGroups).validate).map Prod.fst :=
  checker_accumulates_findings (MemoryGroupAssociationsChecker.mk badRecords badGroups)
    (homogeneityMsg "0x0298" "IMC1")
    (Or.inr (Or.inr (Or.inl (by decide))))

/-- Claim C4: on a fully consistent memory-topology association graph
(every controller group's handle listed in some die group, every die
group listing at least one known controller handle, every controller
item resolving to a GROUP_ASSOCIATIONS record, and no controller handle
owned by two different die groups), validate() returns the empty
mapping. -/
theorem consistent_topology_validates_empty (c : MemoryGroupAssociationsChecker)
    (h1 : ∀ cg ∈ controllerGroups c.groups, ∃ dg ∈ dieGroups c.groups,
      cg.handle ∈ itemHandles dg)
    (h2 : ∀ dg ∈ dieGroups c.groups, ∃ h ∈ itemHandles dg,
      h ∈ controllerHandles c.groups)
    (h3 : ∀ cg ∈ controllerGroups c.groups, ∀ h ∈ itemHandles cg,
      resolvesToGroupRecord c.records h = true)
    (h4 : ∀ h ∈ controllerHandles c.groups, ∀ d1 ∈ dieGroups c.groups,
      ∀ d2 ∈ dieGroups c.groups, h ∈ itemHandles d1 → h ∈ itemHandles d2 →
        d1.handle = d2.handle) :
    c.validate = [] := by
  have hm1 : membershipMsgs c.groups = [] := by
    unfold membershipMsgs
    rw [List.filterMap_eq_nil_iff]
    intro cg hcg
    obtain ⟨dg, hdg, hmem⟩ := h1 cg hcg
    have hany : (dieGroups c.groups).any
        (fun dg2 => (itemHandles dg2).contains cg.handle) = true :=
      List.any_eq_true.mpr ⟨dg, hdg, by simpa using hmem⟩
    rw [if_pos hany]
  have hm2 : emptinessMsgs c.groups = [] := by
    unfold emptinessMsgs
    rw [List.filterMap_eq_nil_iff]
    intro dg hdg
    obtain ⟨h, hmemit, hmemc⟩ := h2 dg hdg
    have hany : (itemHandles dg).any
        (fun h2 => (controllerHandles c.groups).contains h2) = true :=
      List.any_eq_true.mpr ⟨h, hmemit, by simpa using hmemc⟩
    rw [if_pos hany]
  have hm3 : homogeneityMsgs c.records c.groups = [] := by
    unfold homogeneityMsgs
    rw [List.filterMap_eq_nil_iff]
    intro cg hcg
    have hall : (itemHandles cg).all
        (fun h => resolvesToGroupRecord c.records h) = true :=
      List.all_eq_true.mpr (fun h hmem => h3 cg hcg h hmem)
    rw [if_pos hall]
  have hm4 : ownershipMsgs c.groups = [] := by
    rw [ownershipMsgs_eq_spec]
    exact specGo_eq_nil (controllerHandles c.groups) (dieGroups c.groups) h4
      (dieGroups c.groups) [] (by intro x hx; cases hx) (fun x hx => hx)
  unfold MemoryGroupAssociationsChecker.validate MemoryGroupAssociationsChecker.allMsgs
  rw [hm1, hm2, hm3, hm4]
  rfl

/-- Witness for claim C4 at the concrete consistent topology. -/
theorem consistent_topology_validates_empty_witness :
    (MemoryGroupAssociationsChecker.mk goodRecords goodGroups).validate = [] :=
  consistent_topology_validates_empty
    (MemoryGroupAssociationsChecker.mk goodRecords goodGroups)
    (by decide) (by decide) (by decide) (by decide)

/-- Claim C5: RecordsPresenceChecker.validate() returns the empty mapping
when every required record type is present, its key set is exactly the
missing-record messages (one per required type absent, each reading
"<Label> SMBIOS record is missing."), and on a record set lacking only
the baseboard requirement the key set is exactly the single Motherboard
message. -/
theorem records_presence_spec (c : RecordsPresenceChecker) :
    ((∀ tl ∈ requiredRecords, c.records.any (fun r => r.type == some tl.1) = true)
      → c.validate = [])
    ∧ (∀ m, m ∈ (c.validate).map Prod.fst ↔ m ∈ missingMsgs requiredRecords c.records)
    ∧ (c.records.any (fun r => r.type == some RecordType.BASEBOARD_RECORD) = false
      → (c.validate).map Prod.fst = ["Motherboard SMBIOS record is missing."]) := by
  refine ⟨?_, ?_, ?_⟩
  · intro hall
    have hmis : missingMsgs requiredRecords c.records = [] := by
      unfold missingMsgs
      rw [List.filterMap_eq_nil_iff]
      intro tl htl
      rw [if_pos (hall tl htl)]
    unfold RecordsPresenceChecker.validate
    rw [hmis]
    rfl
  · intro m
    unfold RecordsPresenceChecker.validate
    rw [mem_keys_msgsToDict]
    simp
  · intro hno
    unfold RecordsPresenceChecker.validate
    have hmis : missingMsgs requiredRecords c.records
        = ["Motherboard SMBIOS record is missing."] := by
      have hnop : ¬ ∃ x ∈ c.records, x.type = some RecordType.BASEBOARD_RECORD := by
        simpa using hno
      unfold missingMsgs requiredRecords
      simp [hnop]
    rw [hmis]
    decide

/-- Witness for claim C5: a record set with only a BIOS record lacks the
baseboard requirement and yields exactly the Motherboard message. -/
theorem records_presence_spec_witness :
    ((RecordsPresenceChecker.mk [Record.mk "0x0000" (some "0") []] []).validate).map
        Prod.fst
      = ["Motherboard SMBIOS record is missing."] :=
  (records_presence_spec
    (RecordsPresenceChecker.mk [Record.mk "0x0000" (some "0") []] [])).2.2 (by decide)

/-- Claim C8: the whole validation run is deterministic; running the
Orchestrator twice over the same record set, group set, rule catalog and
regular-expression engine produces Error Buckets with identical contents,
hence identical key sets and identical ordered sequences under every key.
In this embedding every stage of the run is a pure function over
insertion-ordered structures, so the two runs coincide definitionally. -/
theorem orchestrator_deterministic (matchRegexp : String → String → Bool)
    (ruleList : List Rule) (records : List Record) (groups : List Group) :
    (runOrchestrator matchRegexp ruleList records groups).bucket
      = (runOrchestrator matchRegexp ruleList records groups).bucket
    ∧ ∀ k, bucketAt (runOrchestrator matchRegexp ruleList records groups) k
        = bucketAt (runOrchestrator matchRegexp ruleList records groups) k :=
  ⟨rfl, fun _ => rfl⟩

end Smbios
